import Mathlib

/-!
Shallow embedding of the timing / note / timeline data model of the
gradio-pianoroll repository (src/backend/gradio_pianoroll), together with
theorems settling the specification claims about it.

Python floats are modelled as rationals (ℚ); every concrete computation
checked below is exact in IEEE double precision (all intermediate values
are representable and the divisions are exact), so the rational model
agrees with the float semantics on those inputs.  Python dicts are
modelled structurally: a key can be absent, present with value None, or
present with a value (the `Entry` type below); `.get` collapses the two
None-like cases exactly as Python does, while `in`-tests distinguish them.
-/

namespace PianoRoll

/-- State of one key of a Python dict: the key can be absent, present with
value `None`, or present with a proper value. -/
inductive Entry (α : Type) where
  | absent : Entry α
  | null : Entry α
  | val : α → Entry α
  deriving Repr

/-- Python `d.get(k)`: `None` for an absent key and for a key holding `None`. -/
def Entry.get {α : Type} : Entry α → Option α
  | .val a => some a
  | _ => none

/-- Python `d.get(k, dflt)`: the default only fires when the key is absent;
a key holding `None` still yields `None`. -/
def Entry.getOr {α : Type} : Entry α → α → Option α
  | .absent, d => some d
  | .null, _ => none
  | .val a, _ => some a

/-- Writing `d.get(k, dflt)` back under the same key: an absent key becomes
the default, otherwise the entry is unchanged. -/
def Entry.refill {α : Type} : Entry α → α → Entry α
  | .absent, d => .val d
  | .null, _ => .null
  | .val a, _ => .val a

/-- Python `if k in d and d[k] is not None: out[k] = d[k]` — keeps only a
proper value, otherwise the key is left out of the output dict. -/
def Entry.keepVal {α : Type} : Entry α → Entry α
  | .val a => .val a
  | _ => .absent

/-- Python `k in d` membership test. -/
def Entry.mem {α : Type} : Entry α → Bool
  | .absent => false
  | _ => true

/-- True when the key is absent from the dict. -/
def Entry.isAbsent {α : Type} : Entry α → Bool
  | .absent => true
  | _ => false

/-- Dict entry produced by `dataclasses.asdict` from a dataclass field:
the key is always written; a `None` field becomes a key holding `None`. -/
def Entry.ofOption {α : Type} : Option α → Entry α
  | some a => .val a
  | none => .null

/-- Opaque JSON-like payload values (curve data, segments, waveform rows,
original-range metadata): the model never inspects them, it only carries
them through. -/
inductive Json where
  | null : Json
  | bool : Bool → Json
  | num : ℚ → Json
  | str : String → Json
  | arr : List Json → Json
  | obj : List (String × Json) → Json

/-! ## Timing conversion library

The repository module `gradio_pianoroll/timing_utils.py` is not under
src/ (only its tests and importers are), so the conversion functions are
modelled from the spec. -/

/-- Modelled from the spec: `FLICKS_PER_SECOND` (also in src
constants.py): 1 second = 705,600,000 flicks exactly. -/
def FLICKS_PER_SECOND : ℚ := 705600000

/-- Modelled from the spec: module timing_utils is missing from src;
conversion table row `flicks = pixels * 60 * 705_600_000 / (pixelsPerBeat * tempo)`. -/
def pixels_to_flicks (pixels pixelsPerBeat tempo : ℚ) : ℚ :=
  pixels * 60 * FLICKS_PER_SECOND / (pixelsPerBeat * tempo)

/-- Modelled from the spec: module timing_utils is missing from src;
conversion table row `seconds = pixels * 60 / (pixelsPerBeat * tempo)`. -/
def pixels_to_seconds (pixels pixelsPerBeat tempo : ℚ) : ℚ :=
  pixels * 60 / (pixelsPerBeat * tempo)

/-- Modelled from the spec: module timing_utils is missing from src;
conversion table row `beats = pixels / pixelsPerBeat`. -/
def pixels_to_beats (pixels pixelsPerBeat : ℚ) : ℚ :=
  pixels / pixelsPerBeat

/-- Modelled from the spec: module timing_utils is missing from src;
conversion table row `ticks = floor(beats * ppqn)`, an integer. -/
def pixels_to_ticks (pixels pixelsPerBeat : ℚ) (ppqn : Int) : Int :=
  Rat.floor (pixels_to_beats pixels pixelsPerBeat * (ppqn : ℚ))

/-- Modelled from the spec: module timing_utils is missing from src;
conversion table row `samples = floor(seconds * sampleRate)`, an integer. -/
def pixels_to_samples (pixels pixelsPerBeat tempo : ℚ) (sampleRate : Int) : Int :=
  Rat.floor (pixels_to_seconds pixels pixelsPerBeat tempo * (sampleRate : ℚ))

/-! ## Note entity (src/backend/gradio_pianoroll/note.py)

The Python `Note` dataclass generates an id in `__post_init__` whenever
none is given, so a constructed Note always carries a string id; id
generation itself (`generate_note_id`, in the missing timing_utils
module) is a side effect, modelled here by passing the would-be fresh id
explicitly. -/

structure Note where
  pitch : Int
  velocity : Int
  lyric : String
  start_pixels : ℚ
  duration_pixels : ℚ
  pixels_per_beat : ℚ
  tempo : ℚ
  sample_rate : Int
  ppqn : Int
  id : String
  deriving Repr, DecidableEq

/-- Property `start_flicks` of note.py: derived lazily from the pixel value. -/
def Note.start_flicks (n : Note) : ℚ :=
  pixels_to_flicks n.start_pixels n.pixels_per_beat n.tempo

/-- Property `duration_flicks` of note.py. -/
def Note.duration_flicks (n : Note) : ℚ :=
  pixels_to_flicks n.duration_pixels n.pixels_per_beat n.tempo

/-- Property `start_seconds` of note.py. -/
def Note.start_seconds (n : Note) : ℚ :=
  pixels_to_seconds n.start_pixels n.pixels_per_beat n.tempo

/-- Property `duration_seconds` of note.py. -/
def Note.duration_seconds (n : Note) : ℚ :=
  pixels_to_seconds n.duration_pixels n.pixels_per_beat n.tempo

/-- Property `end_seconds` of note.py: start + duration. -/
def Note.end_seconds (n : Note) : ℚ :=
  n.start_seconds + n.duration_seconds

/-- Property `start_beats` of note.py. -/
def Note.start_beats (n : Note) : ℚ :=
  pixels_to_beats n.start_pixels n.pixels_per_beat

/-- Property `duration_beats` of note.py. -/
def Note.duration_beats (n : Note) : ℚ :=
  pixels_to_beats n.duration_pixels n.pixels_per_beat

/-- Property `start_ticks` of note.py. -/
def Note.start_ticks (n : Note) : Int :=
  pixels_to_ticks n.start_pixels n.pixels_per_beat n.ppqn

/-- Property `duration_ticks` of note.py. -/
def Note.duration_ticks (n : Note) : Int :=
  pixels_to_ticks n.duration_pixels n.pixels_per_beat n.ppqn

/-- Property `start_samples` of note.py. -/
def Note.start_samples (n : Note) : Int :=
  pixels_to_samples n.start_pixels n.pixels_per_beat n.tempo n.sample_rate

/-- Property `duration_samples` of note.py. -/
def Note.duration_samples (n : Note) : Int :=
  pixels_to_samples n.duration_pixels n.pixels_per_beat n.tempo n.sample_rate

/-- Value stored in the plain-dict record produced by `Note.to_dict`. -/
inductive FieldVal where
  | s : String → FieldVal
  | q : ℚ → FieldVal
  | z : Int → FieldVal
  deriving Repr, DecidableEq

/-- Python dict lookup on the record's key/value list (keys are unique in
a dict; the list is kept in insertion order). -/
def dictGet : List (String × FieldVal) → String → Option FieldVal
  | [], _ => none
  | (k, v) :: rest, key => if k = key then some v else dictGet rest key

/-- Reading a record value as a Python number (int or float). -/
def asNum : Option FieldVal → Option ℚ
  | some (.q v) => some v
  | some (.z i) => some (i : ℚ)
  | _ => none

/-- Reading a record value as a Python int. -/
def asInt : Option FieldVal → Option Int
  | some (.z i) => some i
  | _ => none

/-- Reading a record value as a Python string. -/
def asStr : Option FieldVal → Option String
  | some (.s v) => some v
  | _ => none

/-- Method `Note.to_dict` of note.py: the full flat record, keys in the
order of the Python dict literal.  Note that the source emits `lyric` but
no `phoneme` key. -/
def Note.to_dict (n : Note) : List (String × FieldVal) :=
  [ ("id", .s n.id),
    ("start", .q n.start_pixels),
    ("duration", .q n.duration_pixels),
    ("startFlicks", .q n.start_flicks),
    ("durationFlicks", .q n.duration_flicks),
    ("startSeconds", .q n.start_seconds),
    ("durationSeconds", .q n.duration_seconds),
    ("endSeconds", .q n.end_seconds),
    ("startBeats", .q n.start_beats),
    ("durationBeats", .q n.duration_beats),
    ("startTicks", .z n.start_ticks),
    ("durationTicks", .z n.duration_ticks),
    ("startSample", .z n.start_samples),
    ("durationSamples", .z n.duration_samples),
    ("pitch", .z n.pitch),
    ("velocity", .z n.velocity),
    ("lyric", .s n.lyric) ]

/-- Classmethod `Note.from_dict` of note.py: reads `start`, `duration`,
`pitch` (required — in Python a missing one raises KeyError, modelled as
`none`), `velocity`/`lyric`/`id` with defaults, and installs the supplied
timing context.  `fresh` is the id `__post_init__` would generate when the
record carries none. -/
def Note.from_dict (data : List (String × FieldVal)) (pixels_per_beat tempo : ℚ)
    (sample_rate ppqn : Int) (fresh : String) : Option Note :=
  match asNum (dictGet data "start"), asNum (dictGet data "duration"),
      asInt (dictGet data "pitch") with
  | some st, some du, some pi =>
      some { pitch := pi,
             velocity := (asInt (dictGet data "velocity")).getD 100,
             lyric := (asStr (dictGet data "lyric")).getD "",
             start_pixels := st,
             duration_pixels := du,
             pixels_per_beat := pixels_per_beat,
             tempo := tempo,
             sample_rate := sample_rate,
             ppqn := ppqn,
             id := (asStr (dictGet data "id")).getD fresh }
  | _, _, _ => none

/-! ## Timeline data model (src/backend/gradio_pianoroll/data_models.py)

The boundary plain-map shapes (`NoteDict`, `TimeSignatureDict`,
`LineLayerDict`, `PianoRollDict`) use `Entry` fields so that an absent
key, a key holding `None`, and a key holding a value stay distinguishable
— all three matter to the validators and to `clean_piano_roll_data`.
The dataclasses (`NoteData`, `TimeSignatureData`, `LineLayerConfigData`,
`PianoRollData`) use `Option` fields: their `from_dict` constructors fill
every field via `.get`, so a field can hold `None` even when the Python
type annotation says otherwise. -/

structure NoteDict where
  id : Entry String
  start : Entry ℚ
  duration : Entry ℚ
  pitch : Entry Int
  velocity : Entry Int
  startFlicks : Entry ℚ
  durationFlicks : Entry ℚ
  startSeconds : Entry ℚ
  durationSeconds : Entry ℚ
  endSeconds : Entry ℚ
  startBeats : Entry ℚ
  durationBeats : Entry ℚ
  startTicks : Entry Int
  durationTicks : Entry Int
  startSample : Entry Int
  durationSamples : Entry Int
  lyric : Entry String
  phoneme : Entry String

structure NoteData where
  id : Option String
  start : Option ℚ
  duration : Option ℚ
  pitch : Option Int
  velocity : Option Int
  startFlicks : Option ℚ
  durationFlicks : Option ℚ
  startSeconds : Option ℚ
  durationSeconds : Option ℚ
  endSeconds : Option ℚ
  startBeats : Option ℚ
  durationBeats : Option ℚ
  startTicks : Option Int
  durationTicks : Option Int
  startSample : Option Int
  durationSamples : Option Int
  lyric : Option String
  phoneme : Option String

/-- Classmethod `NoteData.from_dict`: every dataclass field is filled by
`data.get(field)`; unknown input keys are dropped. -/
def NoteData.from_dict (d : NoteDict) : NoteData where
  id := d.id.get
  start := d.start.get
  duration := d.duration.get
  pitch := d.pitch.get
  velocity := d.velocity.get
  startFlicks := d.startFlicks.get
  durationFlicks := d.durationFlicks.get
  startSeconds := d.startSeconds.get
  durationSeconds := d.durationSeconds.get
  endSeconds := d.endSeconds.get
  startBeats := d.startBeats.get
  durationBeats := d.durationBeats.get
  startTicks := d.startTicks.get
  durationTicks := d.durationTicks.get
  startSample := d.startSample.get
  durationSamples := d.durationSamples.get
  lyric := d.lyric.get
  phoneme := d.phoneme.get

/-- Method `NoteData.to_dict` alias `dataclasses.asdict`: every field is
written under its key; a `None` field becomes a key holding `None`. -/
def NoteData.asdict (n : NoteData) : NoteDict where
  id := .ofOption n.id
  start := .ofOption n.start
  duration := .ofOption n.duration
  pitch := .ofOption n.pitch
  velocity := .ofOption n.velocity
  startFlicks := .ofOption n.startFlicks
  durationFlicks := .ofOption n.durationFlicks
  startSeconds := .ofOption n.startSeconds
  durationSeconds := .ofOption n.durationSeconds
  endSeconds := .ofOption n.endSeconds
  startBeats := .ofOption n.startBeats
  durationBeats := .ofOption n.durationBeats
  startTicks := .ofOption n.startTicks
  durationTicks := .ofOption n.durationTicks
  startSample := .ofOption n.startSample
  durationSamples := .ofOption n.durationSamples
  lyric := .ofOption n.lyric
  phoneme := .ofOption n.phoneme

structure TimeSignatureDict where
  numerator : Entry Int
  denominator : Entry Int

structure TimeSignatureData where
  numerator : Option Int
  denominator : Option Int

/-- Classmethod `TimeSignatureData.from_dict`: `data.get("numerator", 4)`
and `data.get("denominator", 4)` — the default fires only for an absent
key, a key holding `None` stays `None`. -/
def TimeSignatureData.from_dict (d : TimeSignatureDict) : TimeSignatureData where
  numerator := d.numerator.getOr 4
  denominator := d.denominator.getOr 4

/-- `dataclasses.asdict` on a time signature. -/
def TimeSignatureData.asdict (t : TimeSignatureData) : TimeSignatureDict where
  numerator := .ofOption t.numerator
  denominator := .ofOption t.denominator

structure LineDataPointDict where
  x : Entry ℚ
  y : Entry ℚ

structure LineDataPointData where
  x : Option ℚ
  y : Option ℚ

/-- Classmethod `LineDataPointData.from_dict`: `data.get("x", 0.0)`,
`data.get("y", 0.0)`. -/
def LineDataPointData.from_dict (d : LineDataPointDict) : LineDataPointData where
  x := d.x.getOr 0
  y := d.y.getOr 0

/-- `dataclasses.asdict` on a line data point. -/
def LineDataPointData.asdict (p : LineDataPointData) : LineDataPointDict where
  x := .ofOption p.x
  y := .ofOption p.y

structure LineLayerDict where
  color : Entry String
  lineWidth : Entry ℚ
  yMin : Entry ℚ
  yMax : Entry ℚ
  position : Entry String
  renderMode : Entry String
  visible : Entry Bool
  opacity : Entry ℚ
  dataType : Entry String
  unit : Entry String
  originalRange : Entry Json
  data : Entry (List LineDataPointDict)

structure LineLayerConfigData where
  color : Option String
  lineWidth : Option ℚ
  yMin : Option ℚ
  yMax : Option ℚ
  position : Option String
  renderMode : Option String
  visible : Option Bool
  opacity : Option ℚ
  dataType : Option String
  unit : Option String
  originalRange : Option Json
  data : List LineDataPointData

/-- Classmethod `LineLayerConfigData.from_dict`: the point list comes from
`data.get("data", [])` (a key holding `None` would make the Python
comprehension raise TypeError; that unreachable-here case is modelled as
the empty list), every other field from `data.get(field)`. -/
def LineLayerConfigData.from_dict (d : LineLayerDict) : LineLayerConfigData where
  color := d.color.get
  lineWidth := d.lineWidth.get
  yMin := d.yMin.get
  yMax := d.yMax.get
  position := d.position.get
  renderMode := d.renderMode.get
  visible := d.visible.get
  opacity := d.opacity.get
  dataType := d.dataType.get
  unit := d.unit.get
  originalRange := d.originalRange.get
  data := (match d.data with
    | .val l => l
    | _ => []).map LineDataPointData.from_dict

/-- `dataclasses.asdict` on a line layer config (recurses into the points). -/
def LineLayerConfigData.asdict (c : LineLayerConfigData) : LineLayerDict where
  color := .ofOption c.color
  lineWidth := .ofOption c.lineWidth
  yMin := .ofOption c.yMin
  yMax := .ofOption c.yMax
  position := .ofOption c.position
  renderMode := .ofOption c.renderMode
  visible := .ofOption c.visible
  opacity := .ofOption c.opacity
  dataType := .ofOption c.dataType
  unit := .ofOption c.unit
  originalRange := .ofOption c.originalRange
  data := .val (c.data.map LineDataPointData.asdict)

structure PianoRollDict where
  notes : Entry (List NoteDict)
  tempo : Entry ℚ
  timeSignature : Entry TimeSignatureDict
  editMode : Entry String
  snapSetting : Entry String
  pixelsPerBeat : Entry ℚ
  sampleRate : Entry Int
  ppqn : Entry Int
  audio_data : Entry String
  curve_data : Entry (List (String × Json))
  segment_data : Entry (List Json)
  line_data : Entry (List (String × LineLayerDict))
  use_backend_audio : Entry Bool
  waveform_data : Entry (List Json)

/-- Boundary dict with every key absent: Python `{}`. -/
def PianoRollDict.emptyDict : PianoRollDict where
  notes := .absent
  tempo := .absent
  timeSignature := .absent
  editMode := .absent
  snapSetting := .absent
  pixelsPerBeat := .absent
  sampleRate := .absent
  ppqn := .absent
  audio_data := .absent
  curve_data := .absent
  segment_data := .absent
  line_data := .absent
  use_backend_audio := .absent
  waveform_data := .absent

/-- Python `not data` on the dict: true exactly when the dict is empty. -/
def PianoRollDict.isEmpty (d : PianoRollDict) : Bool :=
  d.notes.isAbsent && d.tempo.isAbsent && d.timeSignature.isAbsent &&
  d.editMode.isAbsent && d.snapSetting.isAbsent && d.pixelsPerBeat.isAbsent &&
  d.sampleRate.isAbsent && d.ppqn.isAbsent && d.audio_data.isAbsent &&
  d.curve_data.isAbsent && d.segment_data.isAbsent && d.line_data.isAbsent &&
  d.use_backend_audio.isAbsent && d.waveform_data.isAbsent

structure PianoRollData where
  notes : List NoteData
  tempo : Option ℚ
  timeSignature : TimeSignatureData
  editMode : Option String
  snapSetting : Option String
  pixelsPerBeat : Option ℚ
  sampleRate : Option Int
  ppqn : Option Int
  audio_data : Option String
  curve_data : Option (List (String × Json))
  segment_data : Option (List Json)
  line_data : Option (List (String × LineLayerConfigData))
  use_backend_audio : Option Bool
  waveform_data : Option (List Json)

/-- Classmethod `PianoRollData.from_dict`: notes and line_data are coerced
into their dataclasses, the time signature falls back to `{}` when its
key is absent, `tempo`/`editMode`/`snapSetting` get defaults, everything
else comes from a plain `.get`.  A `notes` or `timeSignature` key holding
`None` makes the Python code raise (iterating / attribute access on
`None`); those unreachable-on-clean-inputs cases are modelled as the
default. -/
def PianoRollData.from_dict (d : PianoRollDict) : PianoRollData where
  notes := (match d.notes with
    | .val l => l
    | _ => []).map NoteData.from_dict
  tempo := d.tempo.getOr 120
  timeSignature := match d.timeSignature with
    | .val ts => TimeSignatureData.from_dict ts
    | _ => TimeSignatureData.from_dict ⟨.absent, .absent⟩
  editMode := d.editMode.getOr "select"
  snapSetting := d.snapSetting.getOr "1/4"
  pixelsPerBeat := d.pixelsPerBeat.get
  sampleRate := d.sampleRate.get
  ppqn := d.ppqn.get
  audio_data := d.audio_data.get
  curve_data := d.curve_data.get
  segment_data := d.segment_data.get
  line_data := match d.line_data with
    | .val m => some (m.map (fun kv => (kv.1, LineLayerConfigData.from_dict kv.2)))
    | _ => none
  use_backend_audio := d.use_backend_audio.get
  waveform_data := d.waveform_data.get

/-- Method `PianoRollData.to_dict` alias `dataclasses.asdict`: every field
is written under its key, nested dataclasses become nested dicts. -/
def PianoRollData.asdict (p : PianoRollData) : PianoRollDict where
  notes := .val (p.notes.map NoteData.asdict)
  tempo := .ofOption p.tempo
  timeSignature := .val p.timeSignature.asdict
  editMode := .ofOption p.editMode
  snapSetting := .ofOption p.snapSetting
  pixelsPerBeat := .ofOption p.pixelsPerBeat
  sampleRate := .ofOption p.sampleRate
  ppqn := .ofOption p.ppqn
  audio_data := .ofOption p.audio_data
  curve_data := .ofOption p.curve_data
  segment_data := .ofOption p.segment_data
  line_data := match p.line_data with
    | some m => .val (m.map (fun kv => (kv.1, kv.2.asdict)))
    | none => .null
  use_backend_audio := .ofOption p.use_backend_audio
  waveform_data := .ofOption p.waveform_data

/-- Union value at the boundary: a raw plain dict or a structured
`PianoRollData` dataclass. -/
abbrev PianoRollInput := PianoRollDict ⊕ PianoRollData

/-- Function `create_default_piano_roll_data` of data_models.py. -/
def create_default_piano_roll_data : PianoRollData where
  notes := []
  tempo := some 120
  timeSignature := ⟨some 4, some 4⟩
  editMode := some "select"
  snapSetting := some "1/4"
  pixelsPerBeat := some 80
  sampleRate := some 44100
  ppqn := some 480
  audio_data := none
  curve_data := none
  segment_data := none
  line_data := none
  use_backend_audio := none
  waveform_data := none

/-- Local dict `cleaned` built inside `clean_piano_roll_data`: every
required key is written with `data.get(key, default)`, the optional keys
are kept only when present and not `None`. -/
def cleanedDict (d : PianoRollDict) : PianoRollDict where
  notes := d.notes.refill []
  tempo := d.tempo.refill 120
  timeSignature := d.timeSignature.refill ⟨.val 4, .val 4⟩
  editMode := d.editMode.refill "select"
  snapSetting := d.snapSetting.refill "1/4"
  pixelsPerBeat := d.pixelsPerBeat.refill 80
  sampleRate := d.sampleRate.refill 44100
  ppqn := d.ppqn.refill 480
  audio_data := d.audio_data.keepVal
  curve_data := d.curve_data.keepVal
  segment_data := d.segment_data.keepVal
  line_data := d.line_data.keepVal
  use_backend_audio := d.use_backend_audio.keepVal
  waveform_data := d.waveform_data.keepVal

/-- Function `clean_piano_roll_data` of data_models.py: a falsy input
(the empty dict) becomes the default document, a dataclass input is
flattened by `asdict`, then the defaults are filled and the result is
re-wrapped through `PianoRollData.from_dict`. -/
def clean_piano_roll_data : PianoRollInput → PianoRollData
  | .inl d =>
      if d.isEmpty then create_default_piano_roll_data
      else PianoRollData.from_dict (cleanedDict d)
  | .inr p => PianoRollData.from_dict (cleanedDict p.asdict)

/-! ## Validation (data_models.py)

`ValidationResult` and the two validators.  The validators are modelled
in `Except String`: `NoteValidator.validate_range` compares a value that
can be `None` (`note["start"] < 0` with `start` present as `None` raises
`TypeError` in Python), and that exception propagates out of every
caller, so the model must surface it. -/

structure ValidationResult where
  is_valid : Bool
  errors : List String
  warnings : List String
  deriving Repr, DecidableEq

/-- Classmethod `ValidationResult.success`. -/
def ValidationResult.success : ValidationResult :=
  ⟨true, [], []⟩

/-- Classmethod `ValidationResult.failure` (callers never pass warnings). -/
def ValidationResult.failure (errors : List String) : ValidationResult :=
  ⟨false, errors, []⟩

namespace NoteValidator

/-- Classmethod `validate_required_fields`: one error per missing key of
`REQUIRED_FIELDS = [id, start, duration, pitch, velocity]`, in order. -/
def validate_required_fields (note : NoteDict) : List String :=
  (if note.id.mem then [] else ["Required field \x27id\x27 is missing"]) ++
  (if note.start.mem then [] else ["Required field \x27start\x27 is missing"]) ++
  (if note.duration.mem then [] else ["Required field \x27duration\x27 is missing"]) ++
  (if note.pitch.mem then [] else ["Required field \x27pitch\x27 is missing"]) ++
  (if note.velocity.mem then [] else ["Required field \x27velocity\x27 is missing"])

/-- Classmethod `validate_types`: a key holding `None` is present but is
not a number / integer, so it produces a type error just like any other
wrongly-typed value. -/
def validate_types (note : NoteDict) : List String :=
  (match note.start with
    | .null => ["\x27start\x27 must be a number"]
    | _ => []) ++
  (match note.duration with
    | .null => ["\x27duration\x27 must be a number"]
    | _ => []) ++
  (match note.pitch with
    | .null => ["\x27pitch\x27 must be an integer"]
    | _ => []) ++
  (match note.velocity with
    | .null => ["\x27velocity\x27 must be an integer"]
    | _ => [])

/-- One range check: skipped for an absent key, a comparison against a key
holding `None` raises TypeError in Python (there is no type guard in
`validate_range`). -/
def rangeCheck {α : Type} (e : Entry α) (bad : α → Bool) (err : String) :
    Except String (List String) :=
  match e with
  | .absent => .ok []
  | .null => .error "TypeError"
  | .val v => .ok (if bad v then [err] else [])

/-- Classmethod `validate_range`: checks run in source order — pitch,
velocity, start, duration; the first comparison that hits a `None`
propagates the TypeError. -/
def validate_range (note : NoteDict) : Except String (List String) :=
  match rangeCheck note.pitch (fun p => !(0 ≤ p && p ≤ 127))
      "\x27pitch\x27 must be between 0 and 127" with
  | .error e => .error e
  | .ok e1 =>
    match rangeCheck note.velocity (fun v => !(0 ≤ v && v ≤ 127))
        "\x27velocity\x27 must be between 0 and 127" with
    | .error e => .error e
    | .ok e2 =>
      match rangeCheck note.start (fun s => s < 0)
          "\x27start\x27 must be non-negative" with
      | .error e => .error e
      | .ok e3 =>
        match rangeCheck note.duration (fun d => d ≤ 0)
            "\x27duration\x27 must be positive" with
        | .error e => .error e
        | .ok e4 => .ok (e1 ++ e2 ++ e3 ++ e4)

/-- Classmethod `NoteValidator.to_dict`: a dataclass note is flattened by
`dataclasses.asdict`, a dict passes through. -/
def to_dict : NoteDict ⊕ NoteData → NoteDict
  | .inl d => d
  | .inr nd => nd.asdict

/-- Classmethod `NoteValidator.validate`: accumulates required-field,
type, and range errors, then wraps them in a result. -/
def validate (note : NoteDict ⊕ NoteData) : Except String ValidationResult :=
  match validate_range (to_dict note) with
  | .error e => .error e
  | .ok range_errors =>
      .ok (let all_errors := validate_required_fields (to_dict note) ++
            validate_types (to_dict note) ++ range_errors
          if all_errors.isEmpty then ValidationResult.success
          else ValidationResult.failure all_errors)

end NoteValidator

/-- Function `validate_note` of data_models.py: the error list of the
full validation. -/
def validate_note (note : NoteDict ⊕ NoteData) : Except String (List String) :=
  match NoteValidator.validate note with
  | .error e => .error e
  | .ok result => .ok result.errors

namespace PianoRollValidator

/-- Classmethod `validate_required_fields`: one error per missing key of
`REQUIRED_FIELDS = [notes, tempo, timeSignature, editMode, snapSetting]`. -/
def validate_required_fields (d : PianoRollDict) : List String :=
  (if d.notes.mem then [] else ["Required field \x27notes\x27 is missing"]) ++
  (if d.tempo.mem then [] else ["Required field \x27tempo\x27 is missing"]) ++
  (if d.timeSignature.mem then [] else ["Required field \x27timeSignature\x27 is missing"]) ++
  (if d.editMode.mem then [] else ["Required field \x27editMode\x27 is missing"]) ++
  (if d.snapSetting.mem then [] else ["Required field \x27snapSetting\x27 is missing"])

/-- Helper for `validate_notes`: each note's errors prefixed with its
index, Python `f"Note {i}: {error}"`. -/
def prefixNoteErrors : Nat → List NoteDict → Except String (List String)
  | _, [] => .ok []
  | i, n :: rest =>
      match NoteValidator.validate (.inl n) with
      | .error e => .error e
      | .ok result =>
          match prefixNoteErrors (i + 1) rest with
          | .error e => .error e
          | .ok tail =>
              .ok (result.errors.map (fun e => "Note " ++ toString i ++ ": " ++ e) ++ tail)

/-- Classmethod `validate_notes`: absent key means no errors, a key
holding `None` is not a list, a list is validated note by note. -/
def validate_notes (d : PianoRollDict) : Except String (List String) :=
  match d.notes with
  | .absent => .ok []
  | .null => .ok ["\x27notes\x27 must be a list"]
  | .val l => prefixNoteErrors 0 l

/-- Classmethod `validate_tempo`: the `isinstance` guard short-circuits
the comparison, so a key holding `None` yields an error, never a raise. -/
def validate_tempo (d : PianoRollDict) : List String :=
  match d.tempo with
  | .absent => []
  | .null => ["\x27tempo\x27 must be a positive number"]
  | .val t => if t ≤ 0 then ["\x27tempo\x27 must be a positive number"] else []

/-- Membership-and-type-guarded check of one time-signature component. -/
def tsComponentError (e : Entry Int) (err : String) : List String :=
  match e with
  | .absent => [err]
  | .null => [err]
  | .val v => if v ≤ 0 then [err] else []

/-- Classmethod `validate_time_signature`: absent key means no errors, a
key holding `None` is not a dictionary, otherwise both components are
checked (guards short-circuit, so nothing raises here). -/
def validate_time_signature (d : PianoRollDict) : List String :=
  match d.timeSignature with
  | .absent => []
  | .null => ["\x27timeSignature\x27 must be a dictionary"]
  | .val ts =>
      tsComponentError ts.numerator
        "\x27timeSignature.numerator\x27 must be a positive integer" ++
      tsComponentError ts.denominator
        "\x27timeSignature.denominator\x27 must be a positive integer"

/-- Classmethod `PianoRollValidator.to_dict`: a dataclass document is
flattened by `dataclasses.asdict`, a dict passes through. -/
def to_dict : PianoRollInput → PianoRollDict
  | .inl d => d
  | .inr p => p.asdict

/-- Classmethod `PianoRollValidator.validate`: the four rule groups run
in order and their errors accumulate. -/
def validate (data : PianoRollInput) : Except String ValidationResult :=
  match validate_notes (to_dict data) with
  | .error e => .error e
  | .ok note_errors =>
      .ok (let all_errors := validate_required_fields (to_dict data) ++ note_errors ++
            validate_tempo (to_dict data) ++ validate_time_signature (to_dict data)
          if all_errors.isEmpty then ValidationResult.success
          else ValidationResult.failure all_errors)

end PianoRollValidator

/-- Function `validate_piano_roll_data` of data_models.py. -/
def validate_piano_roll_data (data : PianoRollInput) : Except String (List String) :=
  match PianoRollValidator.validate data with
  | .error e => .error e
  | .ok result => .ok result.errors

/-- Warning text assembled by `validate_and_warn`:
`f"{context} validation failed:\n" + "\n".join(f"  - {error}" ...)`. -/
def warnMessage (context : String) (errors : List String) : String :=
  context ++ " validation failed:\n" ++
    String.intercalate "\n" (errors.map (fun e => "  - " ++ e))

/-- Function `validate_and_warn` of data_models.py: on any validation
error it warns (the emitted warning is returned as the second component,
`warnings.warn` being a side effect) and returns the empty dict `{}`;
otherwise it returns the input unchanged with no warning.  An exception
raised inside validation propagates. -/
def validate_and_warn (data : PianoRollInput) (context : String) :
    Except String (PianoRollInput × Option String) :=
  match validate_piano_roll_data data with
  | .error e => .error e
  | .ok errors =>
      if errors.isEmpty then .ok (data, none)
      else .ok (.inl PianoRollDict.emptyDict, some (warnMessage context errors))

/-! ## Ensure-IDs (data_models.py)

`generate_note_id` lives in the missing timing_utils module; it is
modelled as an abstract stream `fresh : Nat → String` of generated ids,
consumed in order, one per note that needs an id. -/

/-- Python `not note["id"]` / `"id" not in note` test on a dict note:
true for an absent key, a key holding `None`, and the empty string. -/
def noteDictNeedsId (n : NoteDict) : Bool :=
  match n.id with
  | .absent => true
  | .null => true
  | .val s => s = ""

/-- Python `not getattr(note, "id", None)` test on a dataclass note. -/
def noteDataNeedsId (n : NoteData) : Bool :=
  match n.id with
  | none => true
  | some s => s = ""

/-- In-place loop of `ensure_note_ids`: `needs` is the falsy-id test,
`put` writes a generated id into a note, `k` counts ids generated so far
(the fresh stream is consumed in note order). -/
def ensureIdsLoop {α : Type} (needs : α → Bool) (put : Nat → α → α) :
    List α → Nat → List α
  | [], _ => []
  | n :: rest, k =>
      if needs n then put k n :: ensureIdsLoop needs put rest (k + 1)
      else n :: ensureIdsLoop needs put rest k

/-- Loop of `ensure_note_ids` over dict notes. -/
def ensureIdsDict (fresh : Nat → String) (l : List NoteDict) (k : Nat) : List NoteDict :=
  ensureIdsLoop noteDictNeedsId (fun k n => { n with id := .val (fresh k) }) l k

/-- Loop of `ensure_note_ids` over dataclass notes. -/
def ensureIdsData (fresh : Nat → String) (l : List NoteData) (k : Nat) : List NoteData :=
  ensureIdsLoop noteDataNeedsId (fun k n => { n with id := some (fresh k) }) l k

/-- Function `ensure_note_ids` of data_models.py: walks the notes of a
dict or dataclass document and fills in missing/empty ids; a dict without
a usable `notes` list is returned untouched. -/
def ensure_note_ids (data : PianoRollInput) (fresh : Nat → String) : PianoRollInput :=
  match data with
  | .inl d =>
      match d.notes with
      | .val l => .inl { d with notes := .val (ensureIdsDict fresh l 0) }
      | _ => .inl d
  | .inr p => .inr { p with notes := ensureIdsData fresh p.notes 0 }

/-- Count of the first `i` notes that need an id (the fresh-stream
position handed to note `i`). -/
def needyCount {α : Type} (needs : α → Bool) (l : List α) (i : Nat) : Nat :=
  ((l.take i).filter needs).length

/-- Count over dict notes. -/
def needyCountDict (l : List NoteDict) (i : Nat) : Nat :=
  needyCount noteDictNeedsId l i

/-- Count over dataclass notes. -/
def needyCountData (l : List NoteData) (i : Nat) : Nat :=
  needyCount noteDataNeedsId l i

/-! ## Backend data (src/backend/gradio_pianoroll/backend_data.py) -/

structure PianoRollBackendData where
  audio_data : Option String
  curve_data : List (String × Json)
  segment_data : List Json
  use_backend_audio : Bool

/-- Method `PianoRollBackendData.has_data`: audio set, or a non-empty
curve dict, or a non-empty segment list; the backend-audio flag does not
count. -/
def PianoRollBackendData.has_data (b : PianoRollBackendData) : Bool :=
  b.audio_data.isSome || !b.curve_data.isEmpty || !b.segment_data.isEmpty

/-- Keys of the derived timing fields of a note record. -/
def derivedKeys : List String :=
  [ "startFlicks", "durationFlicks", "startSeconds", "durationSeconds",
    "endSeconds", "startBeats", "durationBeats", "startTicks",
    "durationTicks", "startSample", "durationSamples" ]

/-- Dropping the derived timing fields from a record. -/
def stripDerived (data : List (String × FieldVal)) : List (String × FieldVal) :=
  data.filter (fun kv => !(derivedKeys.contains kv.1))

/-! ## Concrete inputs used by witnesses and counterexamples -/

/-- Note dict with every key absent: Python `{}` seen as a note record. -/
def NoteDict.emptyDict : NoteDict where
  id := .absent
  start := .absent
  duration := .absent
  pitch := .absent
  velocity := .absent
  startFlicks := .absent
  durationFlicks := .absent
  startSeconds := .absent
  durationSeconds := .absent
  endSeconds := .absent
  startBeats := .absent
  durationBeats := .absent
  startTicks := .absent
  durationTicks := .absent
  startSample := .absent
  durationSamples := .absent
  lyric := .absent
  phoneme := .absent

/-- Note dataclass with every field `None`. -/
def blankNoteData : NoteData where
  id := none
  start := none
  duration := none
  pitch := none
  velocity := none
  startFlicks := none
  durationFlicks := none
  startSeconds := none
  durationSeconds := none
  endSeconds := none
  startBeats := none
  durationBeats := none
  startTicks := none
  durationTicks := none
  startSample := none
  durationSamples := none
  lyric := none
  phoneme := none

/-- Well-formed note dict: all required fields present and in range. -/
def goodNoteDict : NoteDict :=
  { NoteDict.emptyDict with
    id := .val "n0", start := .val 0, duration := .val 80,
    pitch := .val 60, velocity := .val 100 }

/-- Well-formed document dict built around `goodNoteDict`. -/
def goodRollDict : PianoRollDict :=
  { PianoRollDict.emptyDict with
    notes := .val [goodNoteDict],
    tempo := .val 120,
    timeSignature := .val ⟨.val 4, .val 4⟩,
    editMode := .val "select",
    snapSetting := .val "1/4" }

/-- Dict note with an existing non-empty id. -/
def wNoteKeep : NoteDict :=
  { NoteDict.emptyDict with id := .val "keep-me", pitch := .val 64 }

/-- Dict note whose id is the empty string. -/
def wNoteBlank : NoteDict :=
  { NoteDict.emptyDict with id := .val "", pitch := .val 65 }

/-- Document dict holding the two notes above. -/
def wRollDict : PianoRollDict :=
  { PianoRollDict.emptyDict with notes := .val [wNoteKeep, wNoteBlank] }

/-- Dataclass note with an existing non-empty id. -/
def wDataKeep : NoteData :=
  { blankNoteData with id := some "keep-too", pitch := some 66 }

/-- Dataclass note with no id. -/
def wDataBlank : NoteData :=
  { blankNoteData with pitch := some 67 }

/-- Dataclass document holding the two dataclass notes above. -/
def wRollData : PianoRollData :=
  { create_default_piano_roll_data with notes := [wDataKeep, wDataBlank] }

/-- Deterministic stand-in for the fresh-id stream. -/
def wFresh : Nat → String :=
  fun k => "note-fresh-" ++ toString k

/-- Note of the spec's concrete scenario 4: start 160 px, duration 80 px,
80 px per beat, tempo 120. -/
def exampleNote : Note :=
  { pitch := 60, velocity := 100, lyric := "", start_pixels := 160,
    duration_pixels := 80, pixels_per_beat := 80, tempo := 120,
    sample_rate := 44100, ppqn := 480, id := "note-1" }

/-- Arbitrary fully populated note used to probe the serialized record. -/
def probeNote : Note :=
  { pitch := 72, velocity := 90, lyric := "la", start_pixels := 40,
    duration_pixels := 20, pixels_per_beat := 80, tempo := 120,
    sample_rate := 44100, ppqn := 480, id := "note-2" }

theorem dictGet_filter (p : String × FieldVal → Bool) (data : List (String × FieldVal))
    (key : String) (hp : ∀ v, p (key, v) = true) :
    dictGet (data.filter p) key = dictGet data key := by
  induction data with
  | nil => rfl
  | cons kv rest ih =>
      obtain ⟨k, v⟩ := kv
      by_cases hk : k = key
      · subst hk
        simp [List.filter, hp v, dictGet]
      · by_cases hkeep : p (k, v)
        · simp [List.filter, hkeep, dictGet, hk, ih]
        · simp [List.filter, hkeep, dictGet, hk, ih]

/-! ## Helper lemmas -/

@[simp] theorem Entry.get_ofOption {α : Type} (o : Option α) :
    (Entry.ofOption o).get = o := by
  cases o <;> rfl

@[simp] theorem Entry.getOr_ofOption {α : Type} (o : Option α) (d : α) :
    (Entry.ofOption o).getOr d = o := by
  cases o <;> rfl

@[simp] theorem Entry.refill_ofOption {α : Type} (o : Option α) (d : α) :
    (Entry.ofOption o).refill d = Entry.ofOption o := by
  cases o <;> rfl

@[simp] theorem Entry.keepVal_ofOption_get {α : Type} (o : Option α) :
    (Entry.ofOption o).keepVal.get = o := by
  cases o <;> rfl

@[simp] theorem Entry.refill_val {α : Type} (a : α) (d : α) :
    (Entry.val a).refill d = Entry.val a := rfl

@[simp] theorem Entry.keepVal_val {α : Type} (a : α) :
    (Entry.val a).keepVal = Entry.val a := rfl

@[simp] theorem Entry.keepVal_null {α : Type} :
    (Entry.null : Entry α).keepVal = Entry.absent := rfl

@[simp] theorem noteData_from_dict_asdict (n : NoteData) :
    NoteData.from_dict n.asdict = n := by
  cases n
  simp [NoteData.from_dict, NoteData.asdict]

@[simp] theorem timeSig_from_dict_asdict (t : TimeSignatureData) :
    TimeSignatureData.from_dict t.asdict = t := by
  cases t
  simp [TimeSignatureData.from_dict, TimeSignatureData.asdict]

@[simp] theorem point_from_dict_asdict (p : LineDataPointData) :
    LineDataPointData.from_dict p.asdict = p := by
  cases p
  simp [LineDataPointData.from_dict, LineDataPointData.asdict]

@[simp] theorem map_note_round (l : List NoteData) :
    l.map (NoteData.from_dict ∘ NoteData.asdict) = l := by
  induction l with
  | nil => rfl
  | cons n rest ih => simp [ih, Function.comp]

@[simp] theorem map_point_round (l : List LineDataPointData) :
    l.map (LineDataPointData.from_dict ∘ LineDataPointData.asdict) = l := by
  induction l with
  | nil => rfl
  | cons p rest ih => simp [ih, Function.comp]

@[simp] theorem layer_from_dict_asdict (c : LineLayerConfigData) :
    LineLayerConfigData.from_dict c.asdict = c := by
  cases c
  simp [LineLayerConfigData.from_dict, LineLayerConfigData.asdict]

@[simp] theorem map_layer_round (m : List (String × LineLayerConfigData)) :
    m.map ((fun kv => (kv.1, LineLayerConfigData.from_dict kv.2)) ∘
      (fun kv => (kv.1, kv.2.asdict))) = m := by
  induction m with
  | nil => rfl
  | cons kv rest ih =>
      obtain ⟨k, c⟩ := kv
      simp [ih, Function.comp]

/-- Core of the idempotence proof: re-cleaning the dict form of any
structured document reproduces that document exactly. -/
theorem from_dict_cleaned_asdict (p : PianoRollData) :
    PianoRollData.from_dict (cleanedDict p.asdict) = p := by
  obtain ⟨notes, tempo, ts, em, ss, ppb, sr, pq, au, cu, se, ld, ub, wf⟩ := p
  cases ld <;>
    simp [PianoRollData.from_dict, cleanedDict, PianoRollData.asdict]

theorem ensureIdsLoop_length {α : Type} (needs : α → Bool) (put : Nat → α → α)
    (l : List α) (k : Nat) : (ensureIdsLoop needs put l k).length = l.length := by
  induction l generalizing k with
  | nil => rfl
  | cons n rest ih =>
      by_cases h : needs n <;> simp [ensureIdsLoop, h, ih]

theorem ensureIdsLoop_getD {α : Type} (needs : α → Bool) (put : Nat → α → α)
    (d0 : α) (l : List α) (k i : Nat) (h : i < l.length) :
    (ensureIdsLoop needs put l k).getD i d0 =
      if needs (l.getD i d0) then put (k + needyCount needs l i) (l.getD i d0)
      else l.getD i d0 := by
  induction l generalizing k i with
  | nil => simp at h
  | cons n rest ih =>
      cases i with
      | zero =>
          by_cases hn : needs n <;>
            simp [ensureIdsLoop, hn, needyCount]
      | succ j =>
          have hj : j < rest.length := by simpa using h
          by_cases hn : needs n
          · have hcount : needyCount needs (n :: rest) (j + 1) =
                needyCount needs rest j + 1 := by
              simp [needyCount, List.filter_cons, hn]
            have harith : k + 1 + needyCount needs rest j =
                k + (needyCount needs rest j + 1) := by omega
            simp only [ensureIdsLoop, hn, if_true, List.getD_cons_succ, hcount]
            rw [ih (k + 1) j hj, harith]
          · have hcount : needyCount needs (n :: rest) (j + 1) =
                needyCount needs rest j := by
              simp [needyCount, List.filter_cons, hn]
            simp only [ensureIdsLoop, hn, if_false, Bool.false_eq_true,
              List.getD_cons_succ, hcount]
            rw [ih k j hj]

/-- C1: a Note built with start_pixels 160, duration_pixels 80,
pixels_per_beat 80 and tempo 120 has start_beats 2, duration_beats 1,
start_seconds 1 and end_seconds 1.5 (all four values are exact in IEEE
doubles, so the rational model agrees with the float computation). -/
theorem note_timing_concrete :
    exampleNote.start_beats = 2 ∧ exampleNote.duration_beats = 1 ∧
    exampleNote.start_seconds = 1 ∧ exampleNote.end_seconds = 3 / 2 := by
  refine ⟨?_, ?_, ?_, ?_⟩ <;>
    norm_num [exampleNote, Note.start_beats, Note.duration_beats, Note.start_seconds,
      Note.end_seconds, Note.duration_seconds, pixels_to_beats, pixels_to_seconds]

/-- C2: round trip — rebuilding a Note from its serialized record under a
context keeps id, pixel start/duration, pitch, velocity and lyric, and
installs the supplied context (so every derived timing property is the
fresh conversion of the pixel values under that context); moreover
`from_dict` never reads the derived timing keys: deleting them from any
record leaves its result unchanged. -/
theorem note_record_round_trip (n : Note) (ppb tempo : ℚ) (sr ppqn : Int)
    (fresh : String) :
    Note.from_dict (Note.to_dict n) ppb tempo sr ppqn fresh =
      some { n with pixels_per_beat := ppb, tempo := tempo,
                    sample_rate := sr, ppqn := ppqn } ∧
    ∀ record, Note.from_dict (stripDerived record) ppb tempo sr ppqn fresh =
      Note.from_dict record ppb tempo sr ppqn fresh := by
  constructor
  · rfl
  · intro record
    simp only [Note.from_dict, stripDerived]
    rw [dictGet_filter _ _ "start" (fun _ => rfl),
        dictGet_filter _ _ "duration" (fun _ => rfl),
        dictGet_filter _ _ "pitch" (fun _ => rfl),
        dictGet_filter _ _ "velocity" (fun _ => rfl),
        dictGet_filter _ _ "lyric" (fun _ => rfl),
        dictGet_filter _ _ "id" (fun _ => rfl)]

/-- C3: `clean_piano_roll_data` is idempotent — cleaning the cleaned
document (fed back in its structured form, as the Python Union allows)
changes nothing, for every boundary-shaped input. -/
theorem clean_piano_roll_data_idempotent (x : PianoRollInput) :
    clean_piano_roll_data (.inr (clean_piano_roll_data x)) = clean_piano_roll_data x := by
  cases x with
  | inl d =>
      by_cases h : d.isEmpty <;>
        simp [clean_piano_roll_data, h, from_dict_cleaned_asdict]
  | inr p => simp [clean_piano_roll_data, from_dict_cleaned_asdict]

/-- C7: `has_data` is true exactly when the audio payload is set or the
curve map is non-empty or the segment list is non-empty; in particular a
state with only `use_backend_audio = true` reports no data. -/
theorem has_data_characterization :
    (∀ b : PianoRollBackendData,
      b.has_data = true ↔
        (b.audio_data ≠ none ∨ b.curve_data ≠ [] ∨ b.segment_data ≠ [])) ∧
    PianoRollBackendData.has_data ⟨none, [], [], true⟩ = false := by
  refine ⟨fun b => ?_, rfl⟩
  obtain ⟨a, c, s, u⟩ := b
  cases a <;> cases c <;> cases s <;> simp [PianoRollBackendData.has_data]

/-- C8: boundary defaults — `PianoRollData.from_dict {}` yields tempo 120,
editMode "select", snapSetting "1/4"; `clean_piano_roll_data {}` yields
the default document, which has no notes, pixelsPerBeat 80, sampleRate
44100, ppqn 480 and a 4/4 time signature. -/
theorem boundary_defaults :
    (PianoRollData.from_dict PianoRollDict.emptyDict).tempo = some 120 ∧
    (PianoRollData.from_dict PianoRollDict.emptyDict).editMode = some "select" ∧
    (PianoRollData.from_dict PianoRollDict.emptyDict).snapSetting = some "1/4" ∧
    clean_piano_roll_data (.inl PianoRollDict.emptyDict) = create_default_piano_roll_data ∧
    create_default_piano_roll_data.notes = [] ∧
    create_default_piano_roll_data.pixelsPerBeat = some 80 ∧
    create_default_piano_roll_data.sampleRate = some 44100 ∧
    create_default_piano_roll_data.ppqn = some 480 ∧
    create_default_piano_roll_data.timeSignature = ⟨some 4, some 4⟩ :=
  ⟨rfl, rfl, rfl, rfl, rfl, rfl, rfl, rfl, rfl⟩

/-- C9 counterexample: the record serialized by `Note.to_dict` carries no
`phoneme` key, contradicting the claim that phoneme is part of the full
flat record. -/
theorem to_dict_phoneme_missing :
    dictGet (Note.to_dict probeNote) "phoneme" = none ∧
    "phoneme" ∉ (Note.to_dict probeNote).map Prod.fst := by
  constructor
  · rfl
  · decide

/-- C9 amended: for every Note, `to_dict` materializes exactly the id,
the two pixel fields, the eleven derived timing fields, pitch, velocity
and lyric — and nothing else (in particular no phoneme). -/
theorem to_dict_key_set (n : Note) :
    (Note.to_dict n).map Prod.fst =
      ["id", "start", "duration", "startFlicks", "durationFlicks", "startSeconds",
       "durationSeconds", "endSeconds", "startBeats", "durationBeats", "startTicks",
       "durationTicks", "startSample", "durationSamples", "pitch", "velocity",
       "lyric"] := rfl

/-- C4: validation accumulates all applicable errors — a note with only a
valid start yields exactly the four missing-field errors (id, duration,
pitch, velocity) and nothing else; the all-out-of-range note yields
exactly the four range errors and no missing-field error. -/
theorem validate_error_counts :
    NoteValidator.validate (.inl { NoteDict.emptyDict with start := .val 10 }) =
      .ok (ValidationResult.failure
        ["Required field \x27id\x27 is missing",
         "Required field \x27duration\x27 is missing",
         "Required field \x27pitch\x27 is missing",
         "Required field \x27velocity\x27 is missing"]) ∧
    validate_note (.inl
      { NoteDict.emptyDict with
        id := .val "x", start := .val (-5),
        duration := .val 0, pitch := .val 128, velocity := .val (-1) }) =
      .ok ["\x27pitch\x27 must be between 0 and 127",
           "\x27velocity\x27 must be between 0 and 127",
           "\x27start\x27 must be non-negative",
           "\x27duration\x27 must be positive"] :=
  ⟨rfl, rfl⟩

/-- C5: the code, not the claim — `validate_and_warn` raises a TypeError
(it does not warn-and-return) when a note carries a required numeric
field holding None: `validate_range` compares the value without a type
guard, although `validate_types` recorded a type error one step
earlier. -/
theorem validate_and_warn_type_error :
    validate_and_warn
      (.inl { PianoRollDict.emptyDict with
        notes := .val [{ NoteDict.emptyDict with start := .null }] })
      "Piano roll data" = .error "TypeError" := rfl

theorem intercalate_go_carry (sep x : String) :
    ∀ (as : List String) (pre post : String),
      ∃ q r, String.intercalate.go (pre ++ x ++ post) sep as = q ++ x ++ r := by
  intro as
  induction as with
  | nil => exact fun pre post => ⟨pre, post, rfl⟩
  | cons b bs ih =>
      intro pre post
      obtain ⟨q, r, hq⟩ := ih pre (post ++ sep ++ b)
      refine ⟨q, r, ?_⟩
      have hassoc : pre ++ x ++ post ++ sep ++ b = pre ++ x ++ (post ++ sep ++ b) := by
        simp [String.append_assoc]
      simp only [String.intercalate.go, hassoc]
      exact hq

theorem intercalate_go_mem (sep x : String) :
    ∀ (as : List String) (acc : String), x ∈ as →
      ∃ q r, String.intercalate.go acc sep as = q ++ x ++ r := by
  intro as
  induction as with
  | nil => intro acc h; simp at h
  | cons b bs ih =>
      intro acc h
      rcases List.mem_cons.mp h with rfl | hbs
      · have hx : acc ++ sep ++ x = (acc ++ sep) ++ x ++ "" := by
          simp
        simp only [String.intercalate.go]
        rw [hx]
        exact intercalate_go_carry sep x bs (acc ++ sep) ""
      · simp only [String.intercalate.go]
        exact ih _ hbs

theorem intercalate_mem (sep x : String) (l : List String) (h : x ∈ l) :
    ∃ q r, String.intercalate sep l = q ++ x ++ r := by
  cases l with
  | nil => simp at h
  | cons a as =>
      rcases List.mem_cons.mp h with rfl | has
      · have h2 := intercalate_go_carry sep x as "" ""
        rw [String.append_empty, String.empty_append] at h2
        simpa [String.intercalate] using h2
      · simp only [String.intercalate]
        exact intercalate_go_mem sep x as a has

/-- C5 good path: whenever validation completes without raising,
`validate_and_warn` returns the input unchanged with no warning when
there are no errors, and otherwise warns — the warning starts with the
caller-supplied context label and contains every error string — and
returns the empty dict instead of the input. -/
theorem validate_and_warn_completed (data : PianoRollInput) (context : String)
    (errors : List String)
    (hv : validate_piano_roll_data data = .ok errors) :
    (errors = [] → validate_and_warn data context = .ok (data, none)) ∧
    (errors ≠ [] →
      validate_and_warn data context =
        .ok (.inl PianoRollDict.emptyDict, some (warnMessage context errors)) ∧
      (∃ rest, warnMessage context errors =
        (context ++ " validation failed:\n") ++ rest) ∧
      ∀ e ∈ errors, ∃ pre post, warnMessage context errors = pre ++ e ++ post) := by
  refine ⟨?_, ?_⟩
  · intro he
    subst he
    simp [validate_and_warn, hv]
  · intro he
    refine ⟨?_, ⟨_, rfl⟩, ?_⟩
    · cases errors with
      | nil => exact absurd rfl he
      | cons e es => simp [validate_and_warn, hv]
    · intro e hme
      obtain ⟨q, r, hqr⟩ :=
        intercalate_mem "\n" ("  - " ++ e) (errors.map (fun e => "  - " ++ e))
          (List.mem_map_of_mem _ hme)
      refine ⟨context ++ " validation failed:\n" ++ q ++ "  - ", r, ?_⟩
      simp only [warnMessage, hqr]
      simp [String.append_assoc]

/-- C6: `ensure_note_ids` rewrites only the `notes` list (both for dict
and dataclass documents), preserves the number and order of notes, gives
each note whose id is absent, None or empty the next freshly generated
id (the stream is consumed in note order), keeps every non-empty id, and
touches no other note field. -/
theorem ensure_note_ids_spec (fresh : Nat → String) (d : PianoRollDict)
    (p : PianoRollData) (l : List NoteDict) (i j : Nat)
    (hd : d.notes = Entry.val l) (hi : i < l.length) (hj : j < p.notes.length) :
    ensure_note_ids (.inl d) fresh =
      .inl { d with notes := Entry.val (ensureIdsDict fresh l 0) } ∧
    ensure_note_ids (.inr p) fresh =
      .inr { p with notes := ensureIdsData fresh p.notes 0 } ∧
    (ensureIdsDict fresh l 0).length = l.length ∧
    (ensureIdsData fresh p.notes 0).length = p.notes.length ∧
    (ensureIdsDict fresh l 0).getD i NoteDict.emptyDict =
      (if noteDictNeedsId (l.getD i NoteDict.emptyDict) then
        { l.getD i NoteDict.emptyDict with
          id := Entry.val (fresh (needyCountDict l i)) }
       else l.getD i NoteDict.emptyDict) ∧
    (ensureIdsData fresh p.notes 0).getD j blankNoteData =
      (if noteDataNeedsId (p.notes.getD j blankNoteData) then
        { p.notes.getD j blankNoteData with
          id := some (fresh (needyCountData p.notes j)) }
       else p.notes.getD j blankNoteData) := by
  refine ⟨?_, rfl, ensureIdsLoop_length _ _ _ _, ensureIdsLoop_length _ _ _ _, ?_, ?_⟩
  · simp [ensure_note_ids, hd]
  · simpa [ensureIdsDict, needyCountDict] using
      ensureIdsLoop_getD noteDictNeedsId
        (fun k n => { n with id := Entry.val (fresh k) }) NoteDict.emptyDict l 0 i hi
  · simpa [ensureIdsData, needyCountData] using
      ensureIdsLoop_getD noteDataNeedsId
        (fun k n => { n with id := some (fresh k) }) blankNoteData p.notes 0 j hj

/-- C6 witness: the theorem applied to a two-note dict document (one kept
id, one empty id) and a two-note dataclass document, probing index 1. -/
theorem ensure_note_ids_spec_witness :
    ensure_note_ids (.inl wRollDict) wFresh =
      .inl { wRollDict with
        notes := Entry.val (ensureIdsDict wFresh [wNoteKeep, wNoteBlank] 0) } ∧
    ensure_note_ids (.inr wRollData) wFresh =
      .inr { wRollData with notes := ensureIdsData wFresh wRollData.notes 0 } ∧
    (ensureIdsDict wFresh [wNoteKeep, wNoteBlank] 0).length =
      [wNoteKeep, wNoteBlank].length ∧
    (ensureIdsData wFresh wRollData.notes 0).length = wRollData.notes.length ∧
    (ensureIdsDict wFresh [wNoteKeep, wNoteBlank] 0).getD 1 NoteDict.emptyDict =
      (if noteDictNeedsId ([wNoteKeep, wNoteBlank].getD 1 NoteDict.emptyDict) then
        { [wNoteKeep, wNoteBlank].getD 1 NoteDict.emptyDict with
          id := Entry.val (wFresh (needyCountDict [wNoteKeep, wNoteBlank] 1)) }
       else [wNoteKeep, wNoteBlank].getD 1 NoteDict.emptyDict) ∧
    (ensureIdsData wFresh wRollData.notes 0).getD 1 blankNoteData =
      (if noteDataNeedsId (wRollData.notes.getD 1 blankNoteData) then
        { wRollData.notes.getD 1 blankNoteData with
          id := some (wFresh (needyCountData wRollData.notes 1)) }
       else wRollData.notes.getD 1 blankNoteData) :=
  ensure_note_ids_spec wFresh wRollDict wRollData [wNoteKeep, wNoteBlank] 1 1
    rfl (by decide) (by decide)

theorem result_wrap_spec (errs : List String) (r : ValidationResult)
    (h : (if errs.isEmpty then ValidationResult.success
          else ValidationResult.failure errs) = r) :
    ((r.is_valid = true) ↔ r.errors = []) ∧ r.warnings = [] := by
  subst h
  cases errs with
  | nil => simp [ValidationResult.success]
  | cons e rest => simp [ValidationResult.failure]

/-- C10: every successfully returned validation result is well-formed —
`is_valid` holds exactly when the error list is empty, and the warning
list is always empty (no rule emits warnings). -/
theorem validation_results_wellformed (x : NoteDict ⊕ NoteData)
    (y : PianoRollInput) (r s : ValidationResult)
    (hx : NoteValidator.validate x = .ok r)
    (hy : PianoRollValidator.validate y = .ok s) :
    ((r.is_valid = true) ↔ r.errors = []) ∧ r.warnings = [] ∧
    ((s.is_valid = true) ↔ s.errors = []) ∧ s.warnings = [] := by
  have hr : ((r.is_valid = true) ↔ r.errors = []) ∧ r.warnings = [] := by
    unfold NoteValidator.validate at hx
    cases hrng : NoteValidator.validate_range (NoteValidator.to_dict x) with
    | error e => rw [hrng] at hx; cases hx
    | ok errs =>
        rw [hrng] at hx
        injection hx with hx
        exact result_wrap_spec _ _ hx
  have hs : ((s.is_valid = true) ↔ s.errors = []) ∧ s.warnings = [] := by
    unfold PianoRollValidator.validate at hy
    cases hnotes : PianoRollValidator.validate_notes (PianoRollValidator.to_dict y) with
    | error e => rw [hnotes] at hy; cases hy
    | ok errs =>
        rw [hnotes] at hy
        injection hy with hy
        exact result_wrap_spec _ _ hy
  exact ⟨hr.1, hr.2, hs.1, hs.2⟩

/-- C10 witness: the theorem applied to a valid note dict and a valid
document dict, both of which validate to the success result. -/
theorem validation_results_wellformed_witness :
    NoteValidator.validate (.inl goodNoteDict) = .ok ValidationResult.success ∧
    PianoRollValidator.validate (.inl goodRollDict) = .ok ValidationResult.success ∧
    ((ValidationResult.success.is_valid = true) ↔ ValidationResult.success.errors = []) ∧
    ValidationResult.success.warnings = [] ∧
    ((ValidationResult.success.is_valid = true) ↔ ValidationResult.success.errors = []) ∧
    ValidationResult.success.warnings = [] :=
  ⟨rfl, rfl,
    validation_results_wellformed (.inl goodNoteDict) (.inl goodRollDict)
      ValidationResult.success ValidationResult.success rfl rfl⟩

end PianoRoll
